import Mathlib

/-!
Shallow embedding of the tyr stack-based bytecode interpreter
(src/vm.rs, src/parser.rs, src/sym_tab.rs) and proofs about its
instruction semantics, label resolution and parsing.

Rust panics (stack over/underflow, out-of-bounds indexing, division by
zero or divide/remainder overflow, missing operands, unwrap on None) are
modelled as explicit fault values: VM operations return
`Except Fault VmState`, parser functions return `Option` with `none`
standing for a panic. Machine integers are modelled as `Int` with an
explicit two's-complement wrap (`wrap64`) wherever the source's i64
arithmetic can overflow: release builds wrap there while debug builds
panic, so wrapping-arithmetic properties are stated under no-overflow
hypotheses, where the two build modes agree; the divide/remainder
overflow at `i64::MIN / -1`, which panics in every build mode, is a
fault of its own.
-/

namespace Tyr

/-- Models Rust's `str::split(char)` on the character level: splitting the
empty string yields `[""]`, adjacent separators yield empty tokens, exactly
as `"".split(' ')` yields one empty-string item in Rust. -/
def splitCharList (sep : Char) : List Char → List (List Char)
  | [] => [[]]
  | c :: rest =>
    let r := splitCharList sep rest
    if c = sep then [] :: r
    else
      match r with
      | [] => [[c]]
      | t :: ts => (c :: t) :: ts

/-- String-level wrapper for `splitCharList`, the model of `line.split(' ')`. -/
def splitChar (sep : Char) (s : String) : List String :=
  (splitCharList sep s.data).map (fun l => String.mk l)

/-- Numeric value of an ASCII digit character, `none` for anything else. -/
def digitVal (c : Char) : Option Nat :=
  if 48 ≤ c.toNat ∧ c.toNat ≤ 57 then some (c.toNat - 48) else none

/-- Value of a nonempty all-digit character list, `none` otherwise. -/
def digitsToNat (l : List Char) : Option Nat :=
  if l.isEmpty then none
  else l.foldl (fun acc c => acc.bind (fun n => (digitVal c).map (fun d => 10 * n + d))) (some 0)

/-- Models `str::parse::<i64>()`: optional sign followed by at least one
digit. The i64 range check is omitted; no property proved here involves
out-of-range literals. -/
def parse_i64 (s : String) : Option Int :=
  match s.data with
  | '-' :: rest => (digitsToNat rest).map (fun n => -(n : Int))
  | '+' :: rest => (digitsToNat rest).map (fun n => (n : Int))
  | l => (digitsToNat l).map (fun n => (n : Int))

/-- Instruction set from `op.rs` as referenced by `parser.rs` and `vm.rs`
(the `OpCode` enum variants matched in `Vm::execute` plus `DUP`, which
`Parser::parse_line` emits). -/
inductive OpCode where
  | PRINT (msg : String)
  | LOADC (val : Int)
  | ADD
  | SUB
  | MUL
  | DIV
  | MOD
  | AND
  | OR
  | NEG
  | HALT
  | LOAD
  | STORE
  | JMP (label : String)
  | JMPZ (label : String)
  | JMPI (offset : Int)
  | LOADV (val : Int)
  | STOREV (val : Int)
  | LABEL (name : String) (addr : Nat)
  | NOP
  | DUP
  deriving DecidableEq

/-- Parse-error taxonomy: `OpError::Parse(ParseIntError)` (payload dropped)
and `OpError::Label(String)` from `parser.rs`. -/
inductive OpError where
  | Parse
  | Label (msg : String)
  deriving DecidableEq

/-- SymbolTable from `sym_tab.rs`: a map from label name to program
address. The backing `HashMap` is modelled as an association list where
`insert` prepends and `get` returns the most recent binding, giving the
same observable replace-on-insert behaviour. -/
structure SymbolTable where
  table : List (String × Nat)
  deriving DecidableEq

def SymbolTable.new : SymbolTable := ⟨[]⟩

def SymbolTable.insert (t : SymbolTable) (key : String) (val : Nat) : SymbolTable :=
  ⟨(key, val) :: t.table⟩

def SymbolTable.get (t : SymbolTable) (key : String) : Option Nat :=
  (t.table.find? (fun p => p.fst = key)).map Prod.snd

def SymbolTable.is_duplicate (t : SymbolTable) (key : String) : Bool :=
  (t.get key).isSome

/-- Maximum size for the program stack (`STACK_SIZE` in vm.rs). -/
def STACK_SIZE : Nat := 50

/-- Smallest i64 value, `-2^63`. -/
def I64_MIN : Int := -(2 ^ 63)

/-- Largest i64 value, `2^63 - 1`. -/
def I64_MAX : Int := 2 ^ 63 - 1

/-- Predicate stating that an integer fits in an i64. -/
def inI64 (n : Int) : Prop := I64_MIN ≤ n ∧ n ≤ I64_MAX

instance (n : Int) : Decidable (inI64 n) :=
  inferInstanceAs (Decidable (I64_MIN ≤ n ∧ n ≤ I64_MAX))

/-- Two's-complement wrap of an integer into the i64 range: the value a
64-bit register holds after an overflowing operation. Rust release builds
produce exactly this; debug builds panic on overflow instead, so every
property below about wrapping arithmetic carries a no-overflow hypothesis
under which the two build modes agree and `wrap64` is the identity. -/
def wrap64 (n : Int) : Int := (n + 2 ^ 63) % 2 ^ 64 - 2 ^ 63

/-- Run-time fault kinds, one per distinct panic site in `vm.rs` plus the
implicit Rust panics (array index out of bounds, division by zero,
divide/remainder overflow at `i64::MIN / -1`; usize subtraction underflow
is folded into `stackUnderflow`). -/
inductive Fault where
  | stackOverflow
  | stackUnderflow
  | outOfBounds
  | divByZero
  | arithmeticOverflow
  | illegalLoad
  | illegalStore
  | illegalJumpTarget
  | illegalJumpOffset
  deriving DecidableEq

/-- Mutable state of `Vm`: program counter, stack pointer and the
fixed-size `[i64; STACK_SIZE]` stack, modelled as a total function with
indices at and above `STACK_SIZE` guarded by explicit bound checks. -/
structure VmState where
  pc : Nat
  sp : Nat
  stack : Nat → Int

/-- State built by `Vm::new`: `pc = 0`, `sp = 0`, stack zero-filled. -/
def initState : VmState := ⟨0, 0, fun _ => 0⟩

/-- Read `stack[i]`; Rust array indexing panics when `i` is out of range. -/
def readStack (s : VmState) (i : Nat) : Except Fault Int :=
  if i < STACK_SIZE then Except.ok (s.stack i) else Except.error Fault.outOfBounds

/-- Write `stack[i] = v`; Rust array indexing panics when `i` is out of range. -/
def writeStack (s : VmState) (i : Nat) (v : Int) : Except Fault VmState :=
  if i < STACK_SIZE then Except.ok { s with stack := Function.update s.stack i v }
  else Except.error Fault.outOfBounds

/-- Vm::increment_sp: panics when the stack pointer already equals
`STACK_SIZE`, otherwise increments it. -/
def increment_sp (s : VmState) : Except Fault VmState :=
  if s.sp = STACK_SIZE then Except.error Fault.stackOverflow
  else Except.ok { s with sp := s.sp + 1 }

/-- Vm::decrement_sp: panics when the stack pointer is zero, otherwise
decrements it. -/
def decrement_sp (s : VmState) : Except Fault VmState :=
  if s.sp = 0 then Except.error Fault.stackUnderflow
  else Except.ok { s with sp := s.sp - 1 }

/-- Vm::loadc: increment `sp`, then `stack[sp] = value`. -/
def loadc (value : Int) (s : VmState) : Except Fault VmState :=
  (increment_sp s).bind (fun s1 => writeStack s1 s1.sp value)

/-- Vm::add: `stack[sp-1] = stack[sp] + stack[sp-1]; decrement_sp()`.
When `sp = 0` the Rust expression `self.sp - 1` underflows usize before
anything else happens; that panic is modelled as `stackUnderflow`. The
i64 `+` wraps on overflow in release builds (debug builds panic there),
modelled by `wrap64`. -/
def add (s : VmState) : Except Fault VmState :=
  if s.sp = 0 then Except.error Fault.stackUnderflow
  else
    (readStack s s.sp).bind (fun top =>
    (readStack s (s.sp - 1)).bind (fun below =>
    (writeStack s (s.sp - 1) (wrap64 (top + below))).bind decrement_sp))

/-- Vm::mul: `stack[sp-1] = stack[sp] * stack[sp-1]; decrement_sp()`; i64
`*` wraps on overflow in release builds (debug builds panic there). -/
def mul (s : VmState) : Except Fault VmState :=
  if s.sp = 0 then Except.error Fault.stackUnderflow
  else
    (readStack s s.sp).bind (fun top =>
    (readStack s (s.sp - 1)).bind (fun below =>
    (writeStack s (s.sp - 1) (wrap64 (top * below))).bind decrement_sp))

/-- Vm::sub: `stack[sp-1] = stack[sp] - stack[sp-1]; decrement_sp()`; i64
`-` wraps on overflow in release builds (debug builds panic there). -/
def sub (s : VmState) : Except Fault VmState :=
  if s.sp = 0 then Except.error Fault.stackUnderflow
  else
    (readStack s s.sp).bind (fun top =>
    (readStack s (s.sp - 1)).bind (fun below =>
    (writeStack s (s.sp - 1) (wrap64 (top - below))).bind decrement_sp))

/-- Vm::div: `stack[sp-1] = stack[sp] / stack[sp-1]; decrement_sp()`.
Rust i64 `/` truncates toward zero (`Int.tdiv`) and panics in every build
mode on a zero divisor (`divByZero`) and on the overflowing case
`i64::MIN / -1` (`arithmeticOverflow`); every other quotient of i64
operands fits in i64, so no wrap is involved. -/
def div (s : VmState) : Except Fault VmState :=
  if s.sp = 0 then Except.error Fault.stackUnderflow
  else
    (readStack s s.sp).bind (fun top =>
    (readStack s (s.sp - 1)).bind (fun below =>
    if below = 0 then Except.error Fault.divByZero
    else if top = I64_MIN ∧ below = -1 then Except.error Fault.arithmeticOverflow
    else (writeStack s (s.sp - 1) (Int.tdiv top below)).bind decrement_sp))

/-- Vm::modq: `stack[sp-1] = stack[sp] % stack[sp-1]; decrement_sp()`.
Rust i64 `%` is the truncation-style remainder (`Int.tmod`) and panics in
every build mode on a zero divisor and on the overflow check for
`i64::MIN % -1`. -/
def modq (s : VmState) : Except Fault VmState :=
  if s.sp = 0 then Except.error Fault.stackUnderflow
  else
    (readStack s s.sp).bind (fun top =>
    (readStack s (s.sp - 1)).bind (fun below =>
    if below = 0 then Except.error Fault.divByZero
    else if top = I64_MIN ∧ below = -1 then Except.error Fault.arithmeticOverflow
    else (writeStack s (s.sp - 1) (Int.tmod top below)).bind decrement_sp))

/-- Vm::and: `stack[sp-1] = stack[sp] & stack[sp-1]; decrement_sp()`. -/
def and (s : VmState) : Except Fault VmState :=
  if s.sp = 0 then Except.error Fault.stackUnderflow
  else
    (readStack s s.sp).bind (fun top =>
    (readStack s (s.sp - 1)).bind (fun below =>
    (writeStack s (s.sp - 1) (Int.land top below)).bind decrement_sp))

/-- Vm::or: `stack[sp-1] = stack[sp] | stack[sp-1]; decrement_sp()`. -/
def or (s : VmState) : Except Fault VmState :=
  if s.sp = 0 then Except.error Fault.stackUnderflow
  else
    (readStack s s.sp).bind (fun top =>
    (readStack s (s.sp - 1)).bind (fun below =>
    (writeStack s (s.sp - 1) (Int.lor top below)).bind decrement_sp))

/-- Vm::neg: `stack[sp] = -stack[sp]`, `sp` unchanged; i64 negation of
`i64::MIN` wraps in release builds (debug builds panic there). -/
def neg (s : VmState) : Except Fault VmState :=
  (readStack s s.sp).bind (fun top => writeStack s s.sp (wrap64 (-top)))

/-- Vm::maybe_i64_to_usize: `None` for negative input, otherwise the value
as a usize. -/
def maybe_i64_to_usize (num : Int) : Option Nat :=
  if num < 0 then none else some num.toNat

/-- Vm::load: convert `stack[sp]` to an address (panic if negative), then
`stack[sp] = stack[load_loc]`. -/
def load (s : VmState) : Except Fault VmState :=
  (readStack s s.sp).bind (fun top =>
    match maybe_i64_to_usize top with
    | none => Except.error Fault.illegalLoad
    | some load_loc =>
      (readStack s load_loc).bind (fun v => writeStack s s.sp v))

/-- Vm::loadv: `self.loadc(val); self.load();`. -/
def loadv (val : Int) (s : VmState) : Except Fault VmState :=
  (loadc val s).bind load

/-- Vm::store: convert `stack[sp]` to an address (panic if negative), then
`stack[store_loc] = stack[sp - 1]; decrement_sp()`. -/
def store (s : VmState) : Except Fault VmState :=
  (readStack s s.sp).bind (fun top =>
    match maybe_i64_to_usize top with
    | none => Except.error Fault.illegalStore
    | some store_loc =>
      if s.sp = 0 then Except.error Fault.stackUnderflow
      else
        (readStack s (s.sp - 1)).bind (fun v =>
        (writeStack s store_loc v).bind decrement_sp))

/-- Vm::storev: `self.loadc(val); self.store();`. -/
def storev (val : Int) (s : VmState) : Except Fault VmState :=
  (loadc val s).bind store

/-- Vm::jmp: look the label up in the symbol table (panic when absent) and
set `pc` to the resolved address. -/
def jmp (tab : SymbolTable) (loc : String) (s : VmState) : Except Fault VmState :=
  match tab.get loc with
  | none => Except.error Fault.illegalJumpTarget
  | some new_pc => Except.ok { s with pc := new_pc }

/-- Vm::jmpz: `if stack[sp] == 0 { jmp(loc); } decrement_sp();` — the
decrement is outside the conditional and runs on both branches. -/
def jmpz (tab : SymbolTable) (loc : String) (s : VmState) : Except Fault VmState :=
  (readStack s s.sp).bind (fun top =>
    (if top = 0 then jmp tab loc s else Except.ok s).bind decrement_sp)

/-- Vm::jmpi: validate `stack[sp] + offset` via `maybe_i64_to_usize`
(panic when the sum is negative), set `pc` to it, then `decrement_sp()`.
The i64 sum wraps on overflow in release builds (debug builds panic
there), so the value `maybe_i64_to_usize` inspects is the wrapped sum. -/
def jmpi (offset : Int) (s : VmState) : Except Fault VmState :=
  (readStack s s.sp).bind (fun top =>
    match maybe_i64_to_usize (wrap64 (top + offset)) with
    | none => Except.error Fault.illegalJumpOffset
    | some jmp_addr => decrement_sp { s with pc := jmp_addr })

/-- Vm::peek: `stack[sp]`, the current top of the stack. -/
def peek (s : VmState) : Int :=
  s.stack s.sp

/-- Modelled from the spec: `vm.rs` in this snapshot has no `DUP` arm
(only the parser emits it); §4.4 defines `Dup` as "duplicate `top` onto a
new slot above it (increment `sp` first, fault if overflow, then copy)". -/
def dup (s : VmState) : Except Fault VmState :=
  (increment_sp s).bind (fun s1 =>
    (readStack s1 (s1.sp - 1)).bind (fun top => writeStack s1 s1.sp top))

/-- Vm::execute dispatch. `Except.ok none` is reaching `HALT`
(`process::exit(0)`); `PRINT` side effects and `LABEL` are no-ops on the
state, exactly as in the source match. -/
def execute (tab : SymbolTable) (instr : OpCode) (s : VmState) :
    Except Fault (Option VmState) :=
  match instr with
  | OpCode.LOADC val => (loadc val s).map some
  | OpCode.ADD => (add s).map some
  | OpCode.SUB => (sub s).map some
  | OpCode.MUL => (mul s).map some
  | OpCode.DIV => (div s).map some
  | OpCode.MOD => (modq s).map some
  | OpCode.AND => (and s).map some
  | OpCode.OR => (or s).map some
  | OpCode.NEG => (neg s).map some
  | OpCode.HALT => Except.ok none
  | OpCode.LOAD => (load s).map some
  | OpCode.STORE => (store s).map some
  | OpCode.JMP label => (jmp tab label s).map some
  | OpCode.JMPZ label => (jmpz tab label s).map some
  | OpCode.JMPI offset => (jmpi offset s).map some
  | OpCode.PRINT _ => Except.ok (some s)
  | OpCode.LOADV val => (loadv val s).map some
  | OpCode.STOREV val => (storev val s).map some
  | OpCode.LABEL _ _ => Except.ok (some s)
  | OpCode.NOP => Except.ok (some s)
  | OpCode.DUP => (dup s).map some

/-- One iteration of the `Vm::run` loop: break with `ok none` when
`pc >= prog.len()`, otherwise fetch `prog[pc]`, execute it, and then apply
the unconditional `self.pc = self.pc + 1` — also after jump instructions,
since `execute` returns before the increment in the source loop. -/
def step (prog : List OpCode) (tab : SymbolTable) (s : VmState) :
    Except Fault (Option VmState) :=
  if h : s.pc < prog.length then
    (execute tab (prog.get ⟨s.pc, h⟩) s).map
      (Option.map (fun s1 => { s1 with pc := s1.pc + 1 }))
  else Except.ok none

/-- Executes `LoadConst v` `n` times in sequence from `s`, the scenario of
the stack-capacity property. -/
def pushN (v : Int) : Nat → VmState → Except Fault VmState
  | 0, s => Except.ok s
  | n + 1, s => (pushN v n s).bind (loadc v)

/-- Parser state from `parser.rs`: the current line counter (starting at 1
in `Parser::new`) and the symbol table it populates. -/
structure ParserState where
  line : Nat
  sym_tab : SymbolTable
  deriving DecidableEq

/-- State built by `Parser::new`: line counter 1, caller-supplied table
(here the fresh one used by every scenario in this file). -/
def ParserState.new : ParserState := ⟨1, SymbolTable.new⟩

/-- Parser::parse_label. The duplicate check passes the label *with* its
trailing colon to `is_duplicate`, while `insert` stores the colon-stripped
name — exactly as in the source. `none` models the panic of
`label.chars().nth(label.len() - 1).unwrap()` on an empty label token
(`label.len() - 1` underflows usize). Byte positions coincide with
character positions for the ASCII labels considered here. -/
def parse_label (st : ParserState) (label : String) :
    Option (Except OpError OpCode × SymbolTable) :=
  match label.data.getLast? with
  | none => none
  | some last_char =>
    if last_char ≠ ':' then
      some (Except.error (OpError.Label
        "tyr: Illegal label name - labels must end with a colon."), st.sym_tab)
    else if st.sym_tab.is_duplicate label then
      some (Except.error (OpError.Label
        ("tyr [" ++ toString st.line ++ "]: Duplicate label " ++ label ++ " found!")),
        st.sym_tab)
    else
      let jmp_label := String.mk label.data.dropLast
      some (Except.ok (OpCode.LABEL jmp_label st.line),
        st.sym_tab.insert jmp_label st.line)

/-- Parser::extract_arg: panics (`none`) when the operand token is missing,
returns `OpError::Parse` when it is not a valid integer. -/
def extract_arg (op_vec : List String) : Option (Except OpError Int) :=
  if op_vec.length < 2 then none
  else
    match parse_i64 (op_vec.getD 1 "") with
    | none => some (Except.error OpError.Parse)
    | some arg => some (Except.ok arg)

/-- Parser::parse_line: split on spaces, match the mnemonic, then
`self.line = self.line + 1` before returning. The `try!` macro in the
`LOADV`/`STOREV`/`LOADC`/`JMPI` arms returns from the function *before*
that increment, so an integer-parse error leaves the counter unchanged;
`PRINT`/`JMP`/`JMPZ` index `op_vec[1]` directly and panic (`none`) when
the operand is missing. The `op_vec.is_empty()` early return mirrors the
source even though `split` never produces an empty vector. -/
def parse_line (st : ParserState) (input : String) :
    Option (Except OpError OpCode × ParserState) :=
  match splitChar ' ' input with
  | [] => some (Except.ok OpCode.NOP, st)
  | head :: rest =>
    match head with
    | "PRINT" =>
      match rest.head? with
      | none => none
      | some msg => some (Except.ok (OpCode.PRINT msg), { st with line := st.line + 1 })
    | "HALT" => some (Except.ok OpCode.HALT, { st with line := st.line + 1 })
    | "NOP" => some (Except.ok OpCode.NOP, { st with line := st.line + 1 })
    | "ADD" => some (Except.ok OpCode.ADD, { st with line := st.line + 1 })
    | "SUB" => some (Except.ok OpCode.SUB, { st with line := st.line + 1 })
    | "MUL" => some (Except.ok OpCode.MUL, { st with line := st.line + 1 })
    | "DIV" => some (Except.ok OpCode.DIV, { st with line := st.line + 1 })
    | "MOD" => some (Except.ok OpCode.MOD, { st with line := st.line + 1 })
    | "AND" => some (Except.ok OpCode.AND, { st with line := st.line + 1 })
    | "OR" => some (Except.ok OpCode.OR, { st with line := st.line + 1 })
    | "NEG" => some (Except.ok OpCode.NEG, { st with line := st.line + 1 })
    | "LOAD" => some (Except.ok OpCode.LOAD, { st with line := st.line + 1 })
    | "STORE" => some (Except.ok OpCode.STORE, { st with line := st.line + 1 })
    | "LOADV" =>
      match extract_arg (head :: rest) with
      | none => none
      | some (Except.error e) => some (Except.error e, st)
      | some (Except.ok arg) => some (Except.ok (OpCode.LOADV arg), { st with line := st.line + 1 })
    | "STOREV" =>
      match extract_arg (head :: rest) with
      | none => none
      | some (Except.error e) => some (Except.error e, st)
      | some (Except.ok arg) => some (Except.ok (OpCode.STOREV arg), { st with line := st.line + 1 })
    | "JMP" =>
      match rest.head? with
      | none => none
      | some label => some (Except.ok (OpCode.JMP label), { st with line := st.line + 1 })
    | "JMPZ" =>
      match rest.head? with
      | none => none
      | some label => some (Except.ok (OpCode.JMPZ label), { st with line := st.line + 1 })
    | "LOADC" =>
      match extract_arg (head :: rest) with
      | none => none
      | some (Except.error e) => some (Except.error e, st)
      | some (Except.ok arg) => some (Except.ok (OpCode.LOADC arg), { st with line := st.line + 1 })
    | "JMPI" =>
      match extract_arg (head :: rest) with
      | none => none
      | some (Except.error e) => some (Except.error e, st)
      | some (Except.ok arg) => some (Except.ok (OpCode.JMPI arg), { st with line := st.line + 1 })
    | "DUP" => some (Except.ok OpCode.DUP, { st with line := st.line + 1 })
    | _ =>
      match parse_label st head with
      | none => none
      | some (res, tab) => some (res, { line := st.line + 1, sym_tab := tab })

/-- Concrete state with exactly one pushed operand (`sp = 1`) over a
nonzero sentinel-free stack, used to instantiate the sentinel-arithmetic
property. -/
def oneOperandState : VmState := ⟨0, 1, fun _ => 3⟩


/-- Splitting on a separator never yields an empty token list; in
particular the `op_vec.is_empty()` early-return in `parse_line` is dead
code. -/
theorem splitCharList_ne_nil (sep : Char) (l : List Char) : splitCharList sep l ≠ [] := by
  cases l with
  | nil => simp [splitCharList]
  | cons c rest =>
    unfold splitCharList
    by_cases hc : c = sep
    · simp [hc]
    · simp only [if_neg hc]
      cases splitCharList sep rest <;> simp

/-- String-level version: `line.split(' ')` never yields an empty vector. -/
theorem splitChar_ne_nil (sep : Char) (s : String) : splitChar sep s ≠ [] := by
  unfold splitChar
  cases h : splitCharList sep s.data with
  | nil => exact absurd h (splitCharList_ne_nil sep s.data)
  | cons t ts => simp

/-- Helper: `parse_label` never produces an integer-parse error, only
label errors or a `LABEL` opcode. -/
theorem parse_label_ne_parse (st : ParserState) (label : String)
    (res : Except OpError OpCode) (tab : SymbolTable)
    (h : parse_label st label = some (res, tab)) :
    res ≠ Except.error OpError.Parse := by
  unfold parse_label at h
  split at h
  · simp at h
  · split_ifs at h
    · simp only [Option.some_inj, Prod.mk.injEq] at h
      rcases h with ⟨h1, h2⟩
      subst h1
      simp
    · simp only [Option.some_inj, Prod.mk.injEq] at h
      rcases h with ⟨h1, h2⟩
      subst h1
      simp
    · simp only [Option.some_inj, Prod.mk.injEq] at h
      rcases h with ⟨h1, h2⟩
      subst h1
      simp

/-- Helper: wrapping is the identity on values that fit in an i64, the
region where debug and release builds of the source agree. -/
theorem wrap64_eq_self (n : Int) (h : inI64 n) : wrap64 n = n := by
  unfold wrap64
  unfold inI64 I64_MIN I64_MAX at h
  omega

/-- Helper: a `LoadConst` below the capacity boundary pushes `v` into slot
`sp + 1`. -/
theorem loadc_ok_eq (v : Int) (s : VmState) (h : s.sp + 1 < STACK_SIZE) :
    loadc v s = Except.ok { s with
      sp := s.sp + 1,
      stack := Function.update s.stack (s.sp + 1) v } := by
  unfold loadc increment_sp writeStack
  rw [if_neg (by omega : ¬ s.sp = STACK_SIZE)]
  simp only [Except.bind]
  rw [if_pos h]

/-- Helper: a `LoadConst` whose incremented stack pointer reaches the
capacity writes `stack[STACK_SIZE]`, which is out of bounds. -/
theorem loadc_fault_at_capacity (v : Int) (s : VmState) (h : s.sp + 1 = STACK_SIZE) :
    loadc v s = Except.error Fault.outOfBounds := by
  unfold loadc increment_sp writeStack
  rw [if_neg (by omega : ¬ s.sp = STACK_SIZE)]
  simp only [Except.bind]
  rw [if_neg (by omega : ¬ s.sp + 1 < STACK_SIZE)]

/-- Helper: in-range `Add` writes `stack[sp] + stack[sp-1]` into slot
`sp - 1` and decrements `sp`. -/
theorem add_ok_eq (s : VmState) (h0 : s.sp ≠ 0) (hcap : s.sp < STACK_SIZE) :
    add s = Except.ok { s with
      sp := s.sp - 1,
      stack := Function.update s.stack (s.sp - 1) (wrap64 (s.stack s.sp + s.stack (s.sp - 1))) } := by
  unfold add readStack writeStack decrement_sp
  rw [if_neg h0, if_pos hcap, if_pos (by omega : s.sp - 1 < STACK_SIZE)]
  simp only [Except.bind]
  rw [if_pos (by omega : s.sp - 1 < STACK_SIZE)]
  simp only [Except.bind]
  rw [if_neg h0]

/-- Helper: in-range `Sub`, top operand on the left. -/
theorem sub_ok_eq (s : VmState) (h0 : s.sp ≠ 0) (hcap : s.sp < STACK_SIZE) :
    sub s = Except.ok { s with
      sp := s.sp - 1,
      stack := Function.update s.stack (s.sp - 1) (wrap64 (s.stack s.sp - s.stack (s.sp - 1))) } := by
  unfold sub readStack writeStack decrement_sp
  rw [if_neg h0, if_pos hcap, if_pos (by omega : s.sp - 1 < STACK_SIZE)]
  simp only [Except.bind]
  rw [if_pos (by omega : s.sp - 1 < STACK_SIZE)]
  simp only [Except.bind]
  rw [if_neg h0]

/-- Helper: in-range `Mul`, top operand on the left. -/
theorem mul_ok_eq (s : VmState) (h0 : s.sp ≠ 0) (hcap : s.sp < STACK_SIZE) :
    mul s = Except.ok { s with
      sp := s.sp - 1,
      stack := Function.update s.stack (s.sp - 1) (wrap64 (s.stack s.sp * s.stack (s.sp - 1))) } := by
  unfold mul readStack writeStack decrement_sp
  rw [if_neg h0, if_pos hcap, if_pos (by omega : s.sp - 1 < STACK_SIZE)]
  simp only [Except.bind]
  rw [if_pos (by omega : s.sp - 1 < STACK_SIZE)]
  simp only [Except.bind]
  rw [if_neg h0]

/-- Helper: in-range bitwise `And`, top operand on the left. -/
theorem and_ok_eq (s : VmState) (h0 : s.sp ≠ 0) (hcap : s.sp < STACK_SIZE) :
    and s = Except.ok { s with
      sp := s.sp - 1,
      stack := Function.update s.stack (s.sp - 1) (Int.land (s.stack s.sp) (s.stack (s.sp - 1))) } := by
  unfold and readStack writeStack decrement_sp
  rw [if_neg h0, if_pos hcap, if_pos (by omega : s.sp - 1 < STACK_SIZE)]
  simp only [Except.bind]
  rw [if_pos (by omega : s.sp - 1 < STACK_SIZE)]
  simp only [Except.bind]
  rw [if_neg h0]

/-- Helper: in-range bitwise `Or`, top operand on the left. -/
theorem or_ok_eq (s : VmState) (h0 : s.sp ≠ 0) (hcap : s.sp < STACK_SIZE) :
    or s = Except.ok { s with
      sp := s.sp - 1,
      stack := Function.update s.stack (s.sp - 1) (Int.lor (s.stack s.sp) (s.stack (s.sp - 1))) } := by
  unfold or readStack writeStack decrement_sp
  rw [if_neg h0, if_pos hcap, if_pos (by omega : s.sp - 1 < STACK_SIZE)]
  simp only [Except.bind]
  rw [if_pos (by omega : s.sp - 1 < STACK_SIZE)]
  simp only [Except.bind]
  rw [if_neg h0]

/-- Helper: in-range `Div` with nonzero divisor `stack[sp-1]`, truncating
quotient, top operand on the left. -/
theorem div_ok_eq (s : VmState) (h0 : s.sp ≠ 0) (hcap : s.sp < STACK_SIZE)
    (hz : s.stack (s.sp - 1) ≠ 0)
    (hov : ¬(s.stack s.sp = I64_MIN ∧ s.stack (s.sp - 1) = -1)) :
    div s = Except.ok { s with
      sp := s.sp - 1,
      stack := Function.update s.stack (s.sp - 1) (Int.tdiv (s.stack s.sp) (s.stack (s.sp - 1))) } := by
  unfold div readStack writeStack decrement_sp
  rw [if_neg h0, if_pos hcap, if_pos (by omega : s.sp - 1 < STACK_SIZE)]
  simp only [Except.bind]
  rw [if_neg hz, if_neg hov, if_pos (by omega : s.sp - 1 < STACK_SIZE)]
  simp only [Except.bind]
  rw [if_neg h0]

/-- Helper: in-range `Mod` with nonzero divisor `stack[sp-1]`, truncation
remainder, top operand on the left. -/
theorem modq_ok_eq (s : VmState) (h0 : s.sp ≠ 0) (hcap : s.sp < STACK_SIZE)
    (hz : s.stack (s.sp - 1) ≠ 0)
    (hov : ¬(s.stack s.sp = I64_MIN ∧ s.stack (s.sp - 1) = -1)) :
    modq s = Except.ok { s with
      sp := s.sp - 1,
      stack := Function.update s.stack (s.sp - 1) (Int.tmod (s.stack s.sp) (s.stack (s.sp - 1))) } := by
  unfold modq readStack writeStack decrement_sp
  rw [if_neg h0, if_pos hcap, if_pos (by omega : s.sp - 1 < STACK_SIZE)]
  simp only [Except.bind]
  rw [if_neg hz, if_neg hov, if_pos (by omega : s.sp - 1 < STACK_SIZE)]
  simp only [Except.bind]
  rw [if_neg h0]

/-- Helper: `LoadConst b` then `LoadConst a` from a state with two free
slots fills slots `sp+1` and `sp+2`. -/
theorem push2_eq (a b : Int) (s : VmState) (h : s.sp + 2 < STACK_SIZE) :
    (loadc b s).bind (loadc a) = Except.ok { s with
      sp := s.sp + 2,
      stack := Function.update (Function.update s.stack (s.sp + 1) b) (s.sp + 2) a } := by
  rw [loadc_ok_eq b s (by omega)]
  simp only [Except.bind]
  rw [loadc_ok_eq a _ (by show s.sp + 1 + 1 < STACK_SIZE; omega)]

/-- Helper: from the initial state, up to 49 consecutive `LoadConst`
executions succeed and leave `sp` equal to the number of pushes. -/
theorem pushN_ok_le (v : Int) (k : Nat) (hk : k ≤ 49) :
    ∃ s', pushN v k initState = Except.ok s' ∧ s'.sp = k := by
  induction k with
  | zero => exact ⟨initState, rfl, rfl⟩
  | succ n ih =>
    obtain ⟨s', hp, hsp⟩ := ih (by omega)
    have hcap : s'.sp + 1 < STACK_SIZE := by rw [hsp]; show n + 1 < 50; omega
    refine ⟨{ s' with
      sp := s'.sp + 1,
      stack := Function.update s'.stack (s'.sp + 1) v }, ?_, ?_⟩
    · unfold pushN
      rw [hp]
      simp only [Except.bind]
      exact loadc_ok_eq v s' hcap
    · simp [hsp]

/-- Claim C1, amended: when the current instruction is `Jump(label)` and
the label resolves to `a`, the jump handler sets `pc := a` but the run
loop then applies its unconditional `pc += 1`, so the step ends with
`pc = a + 1` and the next instruction executed is `program[a + 1]`, not
`program[a]`; stack and `sp` are untouched. -/
theorem jmp_step_blanket_increment (prog : List OpCode) (tab : SymbolTable)
    (s : VmState) (label : String) (a : Nat)
    (hpc : prog.get? s.pc = some (OpCode.JMP label)) (ha : tab.get label = some a) :
    step prog tab s = Except.ok (some { s with pc := a + 1 }) := by
  obtain ⟨hlt, hget⟩ := List.get?_eq_some.mp hpc
  unfold step
  rw [dif_pos hlt, hget]
  simp [execute, jmp, ha, Except.map]

/-- Counterexample to claim C1 as stated: jumping to resolved address 5
leaves the program counter at 6, not 5 — the blanket increment is applied
after `Jump` too. -/
theorem jmp_target_pc_counterexample :
    step [OpCode.JMP "l"] ⟨[("l", 5)]⟩ initState = Except.ok (some ⟨6, 0, fun _ => 0⟩) ∧
      (6 : Nat) ≠ 5 :=
  ⟨rfl, by decide⟩

/-- Witness for the amended C1 theorem at a concrete program. -/
theorem jmp_step_blanket_increment_witness :
    step [OpCode.JMP "l"] ⟨[("l", 5)]⟩ initState =
      Except.ok (some { initState with pc := 5 + 1 }) :=
  jmp_step_blanket_increment [OpCode.JMP "l"] ⟨[("l", 5)]⟩ initState "l" 5 rfl rfl

/-- Claim C3, amended: `JumpIfZero(label)` pops the compared value in
both branches — when the top is 0 the step jumps (ending at the resolved
address plus the blanket increment) and still decrements `sp`; when the
top is nonzero it decrements `sp` and falls through. -/
theorem jmpz_step_pops_both_branches (prog : List OpCode) (tab : SymbolTable)
    (s : VmState) (label : String) (a : Nat)
    (hpc : prog.get? s.pc = some (OpCode.JMPZ label)) (ha : tab.get label = some a)
    (h0 : s.sp ≠ 0) (hcap : s.sp < STACK_SIZE) :
    step prog tab s = Except.ok (some (if peek s = 0 then { s with
        pc := a + 1,
        sp := s.sp - 1 }
      else { s with
        pc := s.pc + 1,
        sp := s.sp - 1 })) := by
  obtain ⟨hlt, hget⟩ := List.get?_eq_some.mp hpc
  unfold step
  rw [dif_pos hlt, hget]
  by_cases hz : s.stack s.sp = 0
  · simp [execute, jmpz, readStack, hcap, hz, jmp, ha, decrement_sp, h0, peek,
      Except.bind, Except.map]
  · simp [execute, jmpz, readStack, hcap, hz, decrement_sp, h0, peek,
      Except.bind, Except.map]

/-- Counterexample to claim C3 as stated: with top = 0 the jump is taken
and `sp` drops from 1 to 0, because `decrement_sp` sits outside the
conditional — the stack is not left unchanged by the jump. -/
theorem jmpz_zero_pops_counterexample :
    step [OpCode.JMPZ "l"] ⟨[("l", 3)]⟩ ⟨0, 1, fun _ => 0⟩ =
      Except.ok (some ⟨4, 0, fun _ => 0⟩) ∧ (0 : Nat) ≠ 1 :=
  ⟨rfl, by decide⟩

/-- Witness for the amended C3 theorem at a concrete program. -/
theorem jmpz_step_pops_both_branches_witness :
    step [OpCode.JMPZ "z"] ⟨[("z", 2)]⟩ ⟨0, 1, fun _ => 0⟩ =
      Except.ok (some (if peek ⟨0, 1, fun _ => 0⟩ = 0 then { (⟨0, 1, fun _ => 0⟩ : VmState) with
          pc := 2 + 1,
          sp := 1 - 1 }
        else { (⟨0, 1, fun _ => 0⟩ : VmState) with
          pc := 0 + 1,
          sp := 1 - 1 })) :=
  jmpz_step_pops_both_branches [OpCode.JMPZ "z"] ⟨[("z", 2)]⟩ ⟨0, 1, fun _ => 0⟩ "z" 2
    rfl rfl (by decide) (by decide)

/-- Claim C9, amended: `JumpIndexed(offset)` pops `stack[sp]` and
validates the *sum* `address + offset`, not the popped address itself:
provided the sum stays within the i64 range — on overflow the i64
addition panics in debug builds and wraps in release builds, faulting
when the wrapped sum is negative — it faults exactly when the sum is
negative, and otherwise the handler sets `pc := (address + offset)` and
decrements `sp`. -/
theorem jmpi_validates_sum (offset : Int) (s : VmState)
    (h0 : s.sp ≠ 0) (hcap : s.sp < STACK_SIZE) (hsum : inI64 (peek s + offset)) :
    jmpi offset s = if peek s + offset < 0 then Except.error Fault.illegalJumpOffset
      else Except.ok { s with
        pc := (peek s + offset).toNat,
        sp := s.sp - 1 } := by
  have hw : wrap64 (s.stack s.sp + offset) = s.stack s.sp + offset :=
    wrap64_eq_self _ hsum
  by_cases hneg : s.stack s.sp + offset < 0
  · simp [jmpi, readStack, maybe_i64_to_usize, hcap, hw, hneg, peek, Except.bind]
  · simp [jmpi, readStack, maybe_i64_to_usize, hcap, hw, hneg, decrement_sp, h0, peek,
      Except.bind]

/-- Counterexample to claim C9 as stated: popping the negative address -5
with offset 10 does not fault — only `address + offset` is checked. -/
theorem jmpi_negative_address_counterexample :
    jmpi 10 ⟨0, 1, fun i => if i = 1 then -5 else 0⟩ =
      Except.ok ⟨5, 0, fun i => if i = 1 then -5 else 0⟩ ∧ ((-5 : Int) < 0) :=
  ⟨rfl, by decide⟩

/-- Witness for the amended C9 theorem at a concrete state. -/
theorem jmpi_validates_sum_witness :
    jmpi 10 ⟨0, 1, fun i => if i = 1 then -5 else 0⟩ =
      if peek ⟨0, 1, fun i => if i = 1 then -5 else 0⟩ + 10 < 0 then
        Except.error Fault.illegalJumpOffset
      else Except.ok { (⟨0, 1, fun i => if i = 1 then -5 else 0⟩ : VmState) with
        pc := (peek ⟨0, 1, fun i => if i = 1 then -5 else 0⟩ + 10).toNat,
        sp := 1 - 1 } :=
  jmpi_validates_sum 10 ⟨0, 1, fun i => if i = 1 then -5 else 0⟩ (by decide) (by decide)
    (by decide)

/-- Claim C4, amended: from the initial state (`sp = 0`) the first 49
`LoadConst` executions succeed and the 50th faults, because `loadc`
writes `stack[sp]` after incrementing and slot `STACK_SIZE` is out of
bounds; in general a `LoadConst` from a state with `sp` below capacity
faults iff `sp` after incrementing would equal the capacity. -/
theorem loadc_capacity_bound (k : Nat) (hk : k ≤ 49) :
    (∃ s', pushN 7 k initState = Except.ok s' ∧ s'.sp = k) ∧
    pushN 7 50 initState = Except.error Fault.outOfBounds ∧
    (∀ (s : VmState) (v : Int), s.sp < STACK_SIZE →
      ((∃ e, loadc v s = Except.error e) ↔ s.sp + 1 = STACK_SIZE)) := by
  refine ⟨pushN_ok_le 7 k hk, rfl, ?_⟩
  intro s v hs
  constructor
  · rintro ⟨e, he⟩
    by_contra hne
    rw [loadc_ok_eq v s (by omega)] at he
    exact Except.noConfusion he
  · intro h1
    exact ⟨Fault.outOfBounds, loadc_fault_at_capacity v s h1⟩

/-- Counterexample to claim C4 as stated: the 50th consecutive push
already faults, so pushing 51 values cannot succeed through the 50th. -/
theorem push_fifty_counterexample :
    pushN 1 50 initState = Except.error Fault.outOfBounds := rfl

/-- Witness for the amended C4 theorem at the boundary `k = 49`. -/
theorem loadc_capacity_bound_witness :
    (∃ s', pushN 7 49 initState = Except.ok s' ∧ s'.sp = 49) ∧
    pushN 7 50 initState = Except.error Fault.outOfBounds ∧
    (∀ (s : VmState) (v : Int), s.sp < STACK_SIZE →
      ((∃ e, loadc v s = Except.error e) ↔ s.sp + 1 = STACK_SIZE)) :=
  loadc_capacity_bound 49 (by decide)

/-- Claim C8: `LoadVar(v)` executes exactly as `LoadConst(v)` followed by
`LoadIndirect`, and `StoreVar(v)` exactly as `LoadConst(v)` followed by
`StoreIndirect` — the dispatch of the sugar instruction equals the
monadic composition of the two primitive dispatches, faults included. -/
theorem loadv_storev_sugar (tab : SymbolTable) (v : Int) (s : VmState) :
    execute tab (OpCode.LOADV v) s =
      (execute tab (OpCode.LOADC v) s).bind (fun r =>
        match r with
        | none => Except.ok none
        | some s1 => execute tab OpCode.LOAD s1) ∧
    execute tab (OpCode.STOREV v) s =
      (execute tab (OpCode.LOADC v) s).bind (fun r =>
        match r with
        | none => Except.ok none
        | some s1 => execute tab OpCode.STORE s1) := by
  constructor
  · cases hl : loadc v s <;> simp [execute, loadv, hl, Except.bind, Except.map]
  · cases hl : loadc v s <;> simp [execute, storev, hl, Except.bind, Except.map]

/-- Counterexample to claim C7 as stated: at `a = i64::MIN`, `b = -1`
(a valid i64 pair with `b ≠ 0`) the program panics with a divide
overflow in every build mode instead of leaving the quotient `2^63` —
which does not even fit in an i64 — on top of the stack. -/
theorem div_min_overflow_counterexample :
    (((loadc (-1) initState).bind (loadc I64_MIN)).bind div) =
      Except.error Fault.arithmeticOverflow ∧ (-1 : Int) ≠ 0 :=
  ⟨rfl, by decide⟩

/-- Claim C7, amended: after `LoadConst(b); LoadConst(a)`, each binary
operation takes the most recently pushed value `a` as its left operand:
whenever the mathematical result fits in i64 (on overflow debug builds
panic and release builds wrap, so the mathematical result is not
produced), `Add` leaves `a + b` on top, `Sub` leaves `a - b`, `Mul`
leaves `a * b`; for `b` nonzero and `(a, b) ≠ (i64::MIN, -1)` — at which
the program always panics with an overflow — `Div` leaves the truncating
quotient and `Mod` the truncation remainder. -/
theorem arith_top_is_left_operand (a b : Int) (s : VmState) (h : s.sp + 2 < STACK_SIZE) :
    (inI64 (a + b) → ∃ s', ((loadc b s).bind (loadc a)).bind add = Except.ok s' ∧
      peek s' = a + b ∧ s'.sp = s.sp + 1) ∧
    (inI64 (a - b) → ∃ s', ((loadc b s).bind (loadc a)).bind sub = Except.ok s' ∧
      peek s' = a - b ∧ s'.sp = s.sp + 1) ∧
    (inI64 (a * b) → ∃ s', ((loadc b s).bind (loadc a)).bind mul = Except.ok s' ∧
      peek s' = a * b ∧ s'.sp = s.sp + 1) ∧
    (b ≠ 0 → ¬(a = I64_MIN ∧ b = -1) →
      ∃ s', ((loadc b s).bind (loadc a)).bind div = Except.ok s' ∧
      peek s' = Int.tdiv a b ∧ s'.sp = s.sp + 1) ∧
    (b ≠ 0 → ¬(a = I64_MIN ∧ b = -1) →
      ∃ s', ((loadc b s).bind (loadc a)).bind modq = Except.ok s' ∧
      peek s' = Int.tmod a b ∧ s'.sp = s.sp + 1) := by
  have hp2 := push2_eq a b s h
  have hne : s.sp + 1 ≠ s.sp + 2 := by omega
  have h0 : s.sp + 2 ≠ 0 := by omega
  have hcap : s.sp + 2 < STACK_SIZE := h
  refine ⟨?_, ?_, ?_, ?_, ?_⟩
  · intro hr
    rw [hp2]
    simp only [Except.bind]
    rw [add_ok_eq _ h0 hcap]
    refine ⟨_, rfl, ?_, rfl⟩
    simp [peek, Function.update_same, Function.update_noteq hne, wrap64_eq_self _ hr]
  · intro hr
    rw [hp2]
    simp only [Except.bind]
    rw [sub_ok_eq _ h0 hcap]
    refine ⟨_, rfl, ?_, rfl⟩
    simp [peek, Function.update_same, Function.update_noteq hne, wrap64_eq_self _ hr]
  · intro hr
    rw [hp2]
    simp only [Except.bind]
    rw [mul_ok_eq _ h0 hcap]
    refine ⟨_, rfl, ?_, rfl⟩
    simp [peek, Function.update_same, Function.update_noteq hne, wrap64_eq_self _ hr]
  · intro hb hov
    rw [hp2]
    simp only [Except.bind]
    rw [div_ok_eq _ h0 hcap
      (by simp [Function.update_same, Function.update_noteq hne, hb])
      (by
        rw [(by omega : s.sp + 2 - 1 = s.sp + 1)]
        simp only [Function.update_same, Function.update_noteq hne]
        exact hov)]
    refine ⟨_, rfl, ?_, rfl⟩
    simp [peek, Function.update_same, Function.update_noteq hne]
  · intro hb hov
    rw [hp2]
    simp only [Except.bind]
    rw [modq_ok_eq _ h0 hcap
      (by simp [Function.update_same, Function.update_noteq hne, hb])
      (by
        rw [(by omega : s.sp + 2 - 1 = s.sp + 1)]
        simp only [Function.update_same, Function.update_noteq hne]
        exact hov)]
    refine ⟨_, rfl, ?_, rfl⟩
    simp [peek, Function.update_same, Function.update_noteq hne]

/-- Witness for the amended C7 theorem at `a = 5`, `b = 3`. -/
theorem arith_top_is_left_operand_witness :
    (inI64 (5 + 3) → ∃ s', ((loadc 3 initState).bind (loadc 5)).bind add = Except.ok s' ∧
      peek s' = 5 + 3 ∧ s'.sp = initState.sp + 1) ∧
    (inI64 (5 - 3) → ∃ s', ((loadc 3 initState).bind (loadc 5)).bind sub = Except.ok s' ∧
      peek s' = 5 - 3 ∧ s'.sp = initState.sp + 1) ∧
    (inI64 (5 * 3) → ∃ s', ((loadc 3 initState).bind (loadc 5)).bind mul = Except.ok s' ∧
      peek s' = 5 * 3 ∧ s'.sp = initState.sp + 1) ∧
    ((3 : Int) ≠ 0 → ¬((5 : Int) = I64_MIN ∧ (3 : Int) = -1) →
      ∃ s', ((loadc 3 initState).bind (loadc 5)).bind div = Except.ok s' ∧
      peek s' = Int.tdiv 5 3 ∧ s'.sp = initState.sp + 1) ∧
    ((3 : Int) ≠ 0 → ¬((5 : Int) = I64_MIN ∧ (3 : Int) = -1) →
      ∃ s', ((loadc 3 initState).bind (loadc 5)).bind modq = Except.ok s' ∧
      peek s' = Int.tmod 5 3 ∧ s'.sp = initState.sp + 1) :=
  arith_top_is_left_operand 5 3 initState (by decide)


/-- Claim C10, amended: a binary operation at `sp = 1` does not underflow:
it combines the single operand `stack[1]` with the sentinel `stack[0]` as
right operand and — whenever the result fits in i64 for `Add`/`Sub`/`Mul`
(on overflow debug builds panic and release builds wrap), and
unconditionally for the bitwise `And`/`Or` — writes the result into slot
0 and leaves `sp = 0`. `Div`/`Mod` do the same when the sentinel is
nonzero and the pair is not `(i64::MIN, -1)`; they fault with a
division-by-zero condition when the sentinel is 0 (as in the initial
state) and with an arithmetic-overflow condition at `(i64::MIN, -1)`,
both in every build mode — neither is a stack underflow. An underflow
fault occurs exactly when such an instruction executes with `sp = 0`. -/
theorem binop_sentinel_no_underflow (s : VmState) (h : s.sp = 1) :
    ((inI64 (s.stack 1 + s.stack 0) → add s = Except.ok { s with
      sp := 0,
      stack := Function.update s.stack 0 (s.stack 1 + s.stack 0) }) ∧
    (inI64 (s.stack 1 - s.stack 0) → sub s = Except.ok { s with
      sp := 0,
      stack := Function.update s.stack 0 (s.stack 1 - s.stack 0) }) ∧
    (inI64 (s.stack 1 * s.stack 0) → mul s = Except.ok { s with
      sp := 0,
      stack := Function.update s.stack 0 (s.stack 1 * s.stack 0) }) ∧
    and s = Except.ok { s with
      sp := 0,
      stack := Function.update s.stack 0 (Int.land (s.stack 1) (s.stack 0)) } ∧
    or s = Except.ok { s with
      sp := 0,
      stack := Function.update s.stack 0 (Int.lor (s.stack 1) (s.stack 0)) }) ∧
    (s.stack 0 ≠ 0 → ¬(s.stack 1 = I64_MIN ∧ s.stack 0 = -1) →
      div s = Except.ok { s with
        sp := 0,
        stack := Function.update s.stack 0 (Int.tdiv (s.stack 1) (s.stack 0)) } ∧
      modq s = Except.ok { s with
        sp := 0,
        stack := Function.update s.stack 0 (Int.tmod (s.stack 1) (s.stack 0)) }) ∧
    (s.stack 0 = 0 →
      div s = Except.error Fault.divByZero ∧ modq s = Except.error Fault.divByZero) ∧
    (s.stack 1 = I64_MIN → s.stack 0 = -1 →
      div s = Except.error Fault.arithmeticOverflow ∧
      modq s = Except.error Fault.arithmeticOverflow) ∧
    (∀ t : VmState, t.sp = 0 →
      add t = Except.error Fault.stackUnderflow ∧
      sub t = Except.error Fault.stackUnderflow ∧
      mul t = Except.error Fault.stackUnderflow ∧
      div t = Except.error Fault.stackUnderflow ∧
      modq t = Except.error Fault.stackUnderflow ∧
      and t = Except.error Fault.stackUnderflow ∧
      or t = Except.error Fault.stackUnderflow) := by
  have h0 : s.sp ≠ 0 := by omega
  have hcap : s.sp < STACK_SIZE := by rw [h]; show 1 < 50; omega
  refine ⟨⟨?_, ?_, ?_, ?_, ?_⟩, ?_, ?_, ?_, ?_⟩
  · intro hr
    simp [add_ok_eq s h0 hcap, h, wrap64_eq_self _ hr]
  · intro hr
    simp [sub_ok_eq s h0 hcap, h, wrap64_eq_self _ hr]
  · intro hr
    simp [mul_ok_eq s h0 hcap, h, wrap64_eq_self _ hr]
  · simp [and_ok_eq s h0 hcap, h]
  · simp [or_ok_eq s h0 hcap, h]
  · intro hz0 hov0
    have hz : s.stack (s.sp - 1) ≠ 0 := by rw [h]; exact hz0
    have hov : ¬(s.stack s.sp = I64_MIN ∧ s.stack (s.sp - 1) = -1) := by
      rw [h]; exact hov0
    constructor
    · simp [div_ok_eq s h0 hcap hz hov, h]
    · simp [modq_ok_eq s h0 hcap hz hov, h]
  · intro hz0
    have hz : s.stack (s.sp - 1) = 0 := by rw [h]; exact hz0
    constructor
    · unfold div readStack
      rw [if_neg h0, if_pos hcap, if_pos (by omega : s.sp - 1 < STACK_SIZE)]
      simp only [Except.bind]
      rw [if_pos hz]
    · unfold modq readStack
      rw [if_neg h0, if_pos hcap, if_pos (by omega : s.sp - 1 < STACK_SIZE)]
      simp only [Except.bind]
      rw [if_pos hz]
  · intro hmin hneg1
    have hz : ¬ s.stack (s.sp - 1) = 0 := by simp [h, hneg1]
    have hov : s.stack s.sp = I64_MIN ∧ s.stack (s.sp - 1) = -1 := by
      rw [h]; exact ⟨hmin, hneg1⟩
    constructor
    · unfold div readStack
      rw [if_neg h0, if_pos hcap, if_pos (by omega : s.sp - 1 < STACK_SIZE)]
      simp only [Except.bind]
      rw [if_neg hz, if_pos hov]
    · unfold modq readStack
      rw [if_neg h0, if_pos hcap, if_pos (by omega : s.sp - 1 < STACK_SIZE)]
      simp only [Except.bind]
      rw [if_neg hz, if_pos hov]
  · intro t ht
    refine ⟨?_, ?_, ?_, ?_, ?_, ?_, ?_⟩ <;> simp [add, sub, mul, div, modq, and, or, ht]

/-- Counterexample to claim C10 as stated: `Div` at `sp = 1` over the
zero sentinel faults with division by zero instead of writing a result
into slot 0. -/
theorem div_sentinel_zero_counterexample :
    div ⟨0, 1, fun i => if i = 1 then 5 else 0⟩ = Except.error Fault.divByZero := rfl

/-- Witness for the amended C10 theorem at a concrete state with a
nonzero sentinel. -/
theorem binop_sentinel_no_underflow_witness :
    ((inI64 (oneOperandState.stack 1 + oneOperandState.stack 0) →
      add oneOperandState = Except.ok { oneOperandState with
      sp := 0,
      stack := Function.update oneOperandState.stack 0
        (oneOperandState.stack 1 + oneOperandState.stack 0) }) ∧
    (inI64 (oneOperandState.stack 1 - oneOperandState.stack 0) →
      sub oneOperandState = Except.ok { oneOperandState with
      sp := 0,
      stack := Function.update oneOperandState.stack 0
        (oneOperandState.stack 1 - oneOperandState.stack 0) }) ∧
    (inI64 (oneOperandState.stack 1 * oneOperandState.stack 0) →
      mul oneOperandState = Except.ok { oneOperandState with
      sp := 0,
      stack := Function.update oneOperandState.stack 0
        (oneOperandState.stack 1 * oneOperandState.stack 0) }) ∧
    and oneOperandState = Except.ok { oneOperandState with
      sp := 0,
      stack := Function.update oneOperandState.stack 0
        (Int.land (oneOperandState.stack 1) (oneOperandState.stack 0)) } ∧
    or oneOperandState = Except.ok { oneOperandState with
      sp := 0,
      stack := Function.update oneOperandState.stack 0
        (Int.lor (oneOperandState.stack 1) (oneOperandState.stack 0)) }) ∧
    (oneOperandState.stack 0 ≠ 0 →
      ¬(oneOperandState.stack 1 = I64_MIN ∧ oneOperandState.stack 0 = -1) →
      div oneOperandState = Except.ok { oneOperandState with
        sp := 0,
        stack := Function.update oneOperandState.stack 0
          (Int.tdiv (oneOperandState.stack 1) (oneOperandState.stack 0)) } ∧
      modq oneOperandState = Except.ok { oneOperandState with
        sp := 0,
        stack := Function.update oneOperandState.stack 0
          (Int.tmod (oneOperandState.stack 1) (oneOperandState.stack 0)) }) ∧
    (oneOperandState.stack 0 = 0 →
      div oneOperandState = Except.error Fault.divByZero ∧
      modq oneOperandState = Except.error Fault.divByZero) ∧
    (oneOperandState.stack 1 = I64_MIN → oneOperandState.stack 0 = -1 →
      div oneOperandState = Except.error Fault.arithmeticOverflow ∧
      modq oneOperandState = Except.error Fault.arithmeticOverflow) ∧
    (∀ t : VmState, t.sp = 0 →
      add t = Except.error Fault.stackUnderflow ∧
      sub t = Except.error Fault.stackUnderflow ∧
      mul t = Except.error Fault.stackUnderflow ∧
      div t = Except.error Fault.stackUnderflow ∧
      modq t = Except.error Fault.stackUnderflow ∧
      and t = Except.error Fault.stackUnderflow ∧
      or t = Except.error Fault.stackUnderflow) :=
  binop_sentinel_no_underflow oneOperandState rfl

/-- Helper: the only error `extract_arg` can return is `OpError.Parse`. -/
theorem extract_arg_error_parse (op_vec : List String) (e : OpError)
    (h : extract_arg op_vec = some (Except.error e)) : e = OpError.Parse := by
  unfold extract_arg at h
  split at h
  · simp at h
  · split at h <;> simp_all

/-- Claim C2 (code bug): two declarations of the label `foo:` both parse
successfully — `is_duplicate` is queried with the un-stripped name
`\"foo:\"` while the table stores the stripped `\"foo\"`, so the duplicate is
never detected and the second declaration silently overwrites the entry
with the new line number, contradicting the documented `LabelError`. -/
theorem duplicate_label_not_detected :
    parse_line ⟨1, SymbolTable.new⟩ "foo:" =
      some (Except.ok (OpCode.LABEL "foo" 1), ⟨2, ⟨[("foo", 1)]⟩⟩) ∧
    parse_line ⟨2, ⟨[("foo", 1)]⟩⟩ "foo:" =
      some (Except.ok (OpCode.LABEL "foo" 2), ⟨3, ⟨[("foo", 2), ("foo", 1)]⟩⟩) ∧
    SymbolTable.get ⟨[("foo", 2), ("foo", 1)]⟩ "foo" = some 2 ∧
    SymbolTable.is_duplicate ⟨[("foo", 1)]⟩ "foo:" = false ∧
    SymbolTable.is_duplicate ⟨[("foo", 1)]⟩ "foo" = true :=
  ⟨rfl, rfl, rfl, rfl, rfl⟩

/-- Claim C5 (code bug): parsing the empty source line panics instead of
returning `Nop`: splitting the empty string yields `[\"\"]`, not `[]`, so
the `is_empty` guard never fires and the empty token reaches
`parse_label`, where `label.len() - 1` underflows. -/
theorem empty_line_panics :
    parse_line ⟨1, SymbolTable.new⟩ "" = none ∧ splitChar ' ' "" = [""] :=
  ⟨rfl, rfl⟩

/-- Claim C6, amended: after `parse_line` returns a result, the line
counter has advanced by exactly one for every successful instruction and
for label errors, but is unchanged when an integer operand fails to parse,
because `try!` returns from the function before the increment. -/
theorem parse_line_counter_increment (st : ParserState) (input : String)
    (res : Except OpError OpCode) (st' : ParserState)
    (hres : parse_line st input = some (res, st')) :
    st'.line = match res with
      | Except.error OpError.Parse => st.line
      | _ => st.line + 1 := by
  unfold parse_line at hres
  split at hres
  · rename_i heqnil
    exact absurd heqnil (splitChar_ne_nil ' ' input)
  · repeat' split at hres
    all_goals first
      | (simp only [Option.some_inj, Prod.mk.injEq] at hres
         obtain ⟨h1, h2⟩ := hres
         subst h1
         subst h2
         rfl)
      | exact Option.noConfusion hres
      | skip
    all_goals try
      (rename_i e heq
       have hPe := extract_arg_error_parse _ _ heq
       subst hPe
       simp only [Option.some_inj, Prod.mk.injEq] at hres
       obtain ⟨h1, h2⟩ := hres
       subst h1
       subst h2
       rfl)
    all_goals
      rename_i r tab heq
    all_goals
      have hnp := parse_label_ne_parse _ _ _ _ heq
    all_goals
      simp only [Option.some_inj, Prod.mk.injEq] at hres
    all_goals
      obtain ⟨h1, h2⟩ := hres
    all_goals
      subst h1
    all_goals
      subst h2
    all_goals
      cases r with
      | error e =>
        cases e with
        | Parse => exact absurd rfl hnp
        | Label msg => rfl
      | ok X => rfl

/-- Counterexample to claim C6 as stated: parsing `LOADC h` returns an
integer-parse error and leaves the line counter at 1 instead of 2. -/
theorem parse_error_line_counter_counterexample :
    parse_line ⟨1, SymbolTable.new⟩ "LOADC h" =
      some (Except.error OpError.Parse, ⟨1, SymbolTable.new⟩) ∧ (1 : Nat) ≠ 1 + 1 :=
  ⟨rfl, by decide⟩

/-- Witness for the amended C6 theorem on a successfully parsed line. -/
theorem parse_line_counter_increment_witness :
    (⟨2, SymbolTable.new⟩ : ParserState).line =
      match (Except.ok OpCode.NOP : Except OpError OpCode) with
      | Except.error OpError.Parse => (⟨1, SymbolTable.new⟩ : ParserState).line
      | _ => (⟨1, SymbolTable.new⟩ : ParserState).line + 1 :=
  parse_line_counter_increment ⟨1, SymbolTable.new⟩ "NOP" (Except.ok OpCode.NOP)
    ⟨2, SymbolTable.new⟩ rfl

end Tyr
